import Mathlib

/-!
Shallow embedding of the VisualNovelVM runtime (`vm.py`, `spritesurface.py`)
and assembler (`codegen.py`).  Python strings are modelled as byte lists
(`List Nat`), Python integers as `Int` (arbitrary precision), Python lists by
`List` with Python's indexing rules (negative indices address from the end,
out-of-range access raises, here `Option`).  An exception propagating out of a
handler kills the interpreter thread; all faulting paths are modelled with
`Option`/`Except` so that `none` means "an exception was raised here, before
any of the writes that follow it in the source".
-/

namespace VNVM

def MAX_BANKS : Nat := 32

def MAX_REGISTERS : Nat := 8

/-- Operand kinds, `vm.py` lines 9-12. -/
inductive Operand
  | REGINT
  | REGSTR
  | LITINT
  | LITSTR
deriving DecidableEq, Repr

/-- Code points of a string literal, used to write Python string constants
such as mnemonics and `"default"`.  Python `str` is a code-point sequence;
on the ASCII strings handled here this coincides byte-for-byte with the
UTF-8 encoding that `token.encode("utf-8")` emits and `bytes.decode("utf-8")`
reverses. -/
def tok (s : String) : List Nat := s.data.map Char.toNat

/-- Python list read `l[i]`: negative indices address from the end;
out of range raises `IndexError` (`none`). -/
def pyGet (l : List α) (i : Int) : Option α :=
  if 0 ≤ i then l.get? i.toNat
  else if 0 ≤ i + l.length then l.get? (i + l.length).toNat
  else none

/-- Python list write `l[i] = v`. -/
def pySet (l : List α) (i : Int) (v : α) : Option (List α) :=
  if 0 ≤ i ∧ i < l.length then some (l.set i.toNat v)
  else if 0 ≤ i + l.length ∧ i < 0 then some (l.set (i + l.length).toNat v)
  else none

/-- Write at a nonnegative index (register files are indexed by a decoded
operand byte, which is never negative). -/
def setNth (l : List α) (i : Nat) (v : α) : Option (List α) :=
  if i < l.length then some (l.set i v) else none

/-- Python `dict` assignment `m[k] = v`: replace the value of an existing key,
else append the new binding (insertion order preserved). -/
def dictInsert (m : List (List Nat × α)) (k : List Nat) (v : α) :
    List (List Nat × α) :=
  match m with
  | [] => [(k, v)]
  | (k', v') :: rest =>
      if k' = k then (k, v) :: rest else (k', v') :: dictInsert rest k v

/-- Python `dict` lookup; `none` is a `KeyError`. -/
def dictGet (m : List (List Nat × α)) (k : List Nat) : Option α :=
  match m with
  | [] => none
  | (k', v') :: rest => if k' = k then some v' else dictGet rest k

/-- `pygame.Surface` values are opaque to the VM; we track their provenance:
loaded from a path, or an alpha-modulated copy
(`spritesurface.py` lines 36-39: a copy multiplied by `(255,255,255,alpha)`). -/
inductive Bitmap
  | load (path : List Nat)
  | blend (src : Bitmap) (alpha : Int)
deriving DecidableEq, Repr

/-- `SpriteSurface` state, `spritesurface.py`.  `image_alpha` is only assigned
by `draw_alpha`, never in `__init__`, hence the `Option`. -/
structure SpriteSurface where
  images : List (List Nat × Bitmap)
  anim_name : List Nat
  alpha : Int
  image : Bitmap
  image_alpha : Option Bitmap
deriving DecidableEq, Repr

def defaultName : List Nat := tok "default"

/-- The `__init__` loading loop (`spritesurface.py` lines 10-15): each manifest
entry `name=path` is resolved through the image loader; an `IOError` is
reported and the entry is simply absent.  The manifest file itself is
represented by its parsed `(name, path)` pairs. -/
def loadImages (loadImage : List Nat → Option Bitmap)
    (manifest : List (List Nat × List Nat)) : List (List Nat × Bitmap) :=
  manifest.foldl
    (fun m e =>
      match loadImage e.2 with
      | some img => dictInsert m e.1 img
      | none => m)
    []

/-- `SpriteSurface.__init__` (`spritesurface.py` lines 7-19): after the loading
loop, `self.image = self._images["default"]` raises `KeyError` when no entry
named `default` was successfully loaded, aborting construction. -/
def SpriteSurface.init (loadImage : List Nat → Option Bitmap)
    (manifest : List (List Nat × List Nat)) : Option SpriteSurface :=
  let images := loadImages loadImage manifest
  match dictGet images defaultName with
  | some img => some ⟨images, defaultName, 255, img, none⟩
  | none => none

/-- `draw_alpha` (`spritesurface.py` lines 32-39). -/
def SpriteSurface.draw_alpha (s : SpriteSurface) : SpriteSurface :=
  if s.alpha = 255 then { s with image_alpha := some s.image }
  else { s with image_alpha := some (Bitmap.blend s.image s.alpha) }

/-- The `alpha` property setter (`spritesurface.py` lines 25-30): the range
check raises `ValueError` before any field is written. -/
def SpriteSurface.setAlpha (s : SpriteSurface) (a : Int) : Option SpriteSurface :=
  if 0 ≤ a ∧ a ≤ 255 then
    some (SpriteSurface.draw_alpha { s with alpha := a })
  else none

/-- An attribute value is a Python int or str (`attri` / `attrs`). -/
inductive Val
  | vi (n : Int)
  | vs (s : List Nat)
deriving DecidableEq, Repr

/-- Per-thread state, `VMThread.__init__` (`vm.py` lines 45-58).
Python `list.append` / `list.pop()` give a LIFO at the tail; the three stacks
are modelled with the list head as the stack top. -/
structure VMThread where
  pc : Int
  str_stack : List (List Nat)
  int_stack : List Int
  call_stack : List Int
  regints : List Int
  regstrs : List (List Nat)
  attr_list : List (List Nat × Val)
  comparator : Int
  running : Bool
deriving DecidableEq, Repr

/-- A fresh thread at a given pc: empty stacks, zeroed registers. -/
def VMThread.init (pc : Int) : VMThread :=
  ⟨pc, [], [], [], List.replicate MAX_REGISTERS 0,
    List.replicate MAX_REGISTERS [], [], 0, true⟩

abbrev Bank := List (Option SpriteSurface)

/-! Opcode handlers (`vm.py` lines 93-291), one definition per source method.
Register-file reads `self.regints[i]` / `self.regstrs[i]` use a decoded
operand byte as index, so the index is a `Nat`; an index past the end raises
`IndexError` (`none`).  Handlers that only touch thread-local state take and
return a `VMThread`; handlers touching the sprite bank also take the bank. -/

/-- `VMThread.stop` (`vm.py` lines 90-91). -/
def VMThread.stop (t : VMThread) : VMThread := { t with running := false }

/-- `loadspr` (`vm.py` lines 99-103); `SpriteSurface(vpath)` is the external
constructor, passed in as `sprOf` (it may itself raise). -/
def VMThread.loadspr (sprOf : List Nat → Option SpriteSurface) (t : VMThread)
    (bank : Bank) (regstr_vpath regint_banknum : Nat) : Option Bank := do
  let vpath ← t.regstrs.get? regstr_vpath
  let banknum ← t.regints.get? regint_banknum
  let s ← sprOf vpath
  pySet bank banknum (some s)

/-- `unloadspr` (`vm.py` lines 106-108). -/
def VMThread.unloadspr (t : VMThread) (bank : Bank)
    (regint_banknum : Nat) : Option Bank := do
  let banknum ← t.regints.get? regint_banknum
  pySet bank banknum none

/-- `fork` (`vm.py` lines 111-118).  When the thread is running, the body calls
`self.global_state._call_fork()` without the `pc` argument that
`Runtime._call_fork(self, pc)` requires, raising `TypeError` (`none`). -/
def VMThread.fork (t : VMThread) (litint_procedure : Nat) : Option VMThread :=
  if t.running then none else some t

/-- `ret` (`vm.py` lines 121-123): pop the call stack into `pc`. -/
def VMThread.ret (t : VMThread) : Option VMThread :=
  match t.call_stack with
  | [] => none
  | r :: rest => some { t with pc := r, call_stack := rest }

/-- `call` (`vm.py` lines 126-129): push `pc`, set `pc := target - 1`
(the dispatcher's trailing increment lands on `target`). -/
def VMThread.call (t : VMThread) (litint_procedure : Nat) : VMThread :=
  { t with call_stack := t.pc :: t.call_stack,
           pc := (litint_procedure : Int) - 1 }

/-- `pushs` (`vm.py` lines 132-134). -/
def VMThread.pushs (t : VMThread) (regstr : Nat) : Option VMThread := do
  let v ← t.regstrs.get? regstr
  pure { t with str_stack := v :: t.str_stack }

/-- `pops` (`vm.py` lines 137-139). -/
def VMThread.pops (t : VMThread) (regstr : Nat) : Option VMThread :=
  match t.str_stack with
  | [] => none
  | v :: rest => do
      let rs ← setNth t.regstrs regstr v
      pure { t with str_stack := rest, regstrs := rs }

/-- `pushi` (`vm.py` lines 142-144). -/
def VMThread.pushi (t : VMThread) (regint : Nat) : Option VMThread := do
  let v ← t.regints.get? regint
  pure { t with int_stack := v :: t.int_stack }

/-- `popi` (`vm.py` lines 147-149). -/
def VMThread.popi (t : VMThread) (regint : Nat) : Option VMThread :=
  match t.int_stack with
  | [] => none
  | v :: rest => do
      let rs ← setNth t.regints regint v
      pure { t with int_stack := rest, regints := rs }

/-- `waitms` (`vm.py` lines 152-154): the body is `pass`. -/
def VMThread.waitms (t : VMThread) (regint_millsecs : Nat) : VMThread := t

/-- `waithook` (`vm.py` lines 158-162): despite the docstring, the body is
`pass` — the thread is never parked and continues immediately. -/
def VMThread.waithook (t : VMThread) (litstr_hookname : List Nat) : VMThread := t

/-- `fire` (`vm.py` lines 166-168): the body is `pass`. -/
def VMThread.fire (t : VMThread) (litstr_hookname : List Nat) : VMThread := t

/-- `say` (`vm.py` lines 171-173): the body is `pass` (the operand registers
are not even read, so no range check happens). -/
def VMThread.say (t : VMThread) (regint_char_banknum regstr_message : Nat) :
    VMThread := t

/-- `setls` (`vm.py` lines 176-178). -/
def VMThread.setls (t : VMThread) (regstr : Nat) (litstr : List Nat) :
    Option VMThread := do
  let rs ← setNth t.regstrs regstr litstr
  pure { t with regstrs := rs }

/-- `setli` (`vm.py` lines 182-184): the stored value is the LITINT as decoded
by the dispatcher (unsigned). -/
def VMThread.setli (t : VMThread) (regint : Nat) (litint : Nat) :
    Option VMThread := do
  let rs ← setNth t.regints regint (litint : Int)
  pure { t with regints := rs }

/-- `setrs` (`vm.py` lines 188-190). -/
def VMThread.setrs (t : VMThread) (regstr1 regstr2 : Nat) : Option VMThread := do
  let v ← t.regstrs.get? regstr2
  let rs ← setNth t.regstrs regstr1 v
  pure { t with regstrs := rs }

/-- `setri` (`vm.py` lines 194-196). -/
def VMThread.setri (t : VMThread) (regint1 regint2 : Nat) : Option VMThread := do
  let v ← t.regints.get? regint2
  let rs ← setNth t.regints regint1 v
  pure { t with regints := rs }

/-- `show` (`vm.py` lines 200-203):
`self.sprite_bank[self.regints[b]].alpha = self.regints[a]`.
An empty slot raises `AttributeError`; the alpha setter raises `ValueError`
out of range — both before any state is written. -/
def VMThread.showspr (t : VMThread) (bank : Bank)
    (regint_banknum regint_alpha : Nat) : Option Bank := do
  let banknum ← t.regints.get? regint_banknum
  let a ← t.regints.get? regint_alpha
  let slot ← pyGet bank banknum
  let s ← slot
  let s' ← s.setAlpha a
  pySet bank banknum (some s')

/-- `layer` (`vm.py` lines 206-209): the body is `pass`. -/
def VMThread.layer (t : VMThread) (regint_banknum regint_layer : Nat) :
    VMThread := t

/-- `attri` (`vm.py` lines 212-215). -/
def VMThread.attri (t : VMThread) (litstr_attribute_name : List Nat)
    (regint_attribute_value : Nat) : Option VMThread := do
  let v ← t.regints.get? regint_attribute_value
  pure { t with attr_list := dictInsert t.attr_list litstr_attribute_name (.vi v) }

/-- `attrs` (`vm.py` lines 219-222). -/
def VMThread.attrs (t : VMThread) (litstr_attribute_name : List Nat)
    (regstr_attribute_value : Nat) : Option VMThread := do
  let v ← t.regstrs.get? regstr_attribute_value
  pure { t with attr_list := dictInsert t.attr_list litstr_attribute_name (.vs v) }

/-- `openbank` (`vm.py` lines 226-231): write the lowest empty slot index;
if every slot is occupied the loop falls through without assigning. -/
def VMThread.openbank (t : VMThread) (bank : Bank) (regint_banknum : Nat) :
    Option VMThread :=
  match bank.findIdx? Option.isNone with
  | some index => do
      let rs ← setNth t.regints regint_banknum (index : Int)
      pure { t with regints := rs }
  | none => some t

/-- `addr` (`vm.py` lines 234-237): `regints[r1] += regints[r2]`, exact
(arbitrary-precision) Python arithmetic, no 32-bit wrap. -/
def VMThread.addr (t : VMThread) (regint1 regint2 : Nat) : Option VMThread := do
  let v1 ← t.regints.get? regint1
  let v2 ← t.regints.get? regint2
  let rs ← setNth t.regints regint1 (v1 + v2)
  pure { t with regints := rs }

/-- `subr` (`vm.py` lines 240-243): the body is
`self.regints[regint1] += self.regints[regint2]` — it ADDS, despite the
docstring "Subtract regint2 from regint1". -/
def VMThread.subr (t : VMThread) (regint1 regint2 : Nat) : Option VMThread := do
  let v1 ← t.regints.get? regint1
  let v2 ← t.regints.get? regint2
  let rs ← setNth t.regints regint1 (v1 + v2)
  pure { t with regints := rs }

/-- `concatl` (`vm.py` lines 246-249). -/
def VMThread.concatl (t : VMThread) (regstr : Nat) (litstr : List Nat) :
    Option VMThread := do
  let v ← t.regstrs.get? regstr
  let rs ← setNth t.regstrs regstr (v ++ litstr)
  pure { t with regstrs := rs }

/-- `concatr` (`vm.py` lines 252-255). -/
def VMThread.concatr (t : VMThread) (regstr1 regstr2 : Nat) :
    Option VMThread := do
  let v1 ← t.regstrs.get? regstr1
  let v2 ← t.regstrs.get? regstr2
  let rs ← setNth t.regstrs regstr1 (v1 ++ v2)
  pure { t with regstrs := rs }

/-- `cmp_iil` (`vm.py` lines 258-261): exact Python subtraction of the LITINT
as decoded by the dispatcher, i.e. as an unsigned 32-bit value. -/
def VMThread.cmp_iil (t : VMThread) (regint : Nat) (litint : Nat) :
    Option VMThread := do
  let v ← t.regints.get? regint
  pure { t with comparator := v - (litint : Int) }

/-- `cmp_iir` (`vm.py` lines 264-267). -/
def VMThread.cmp_iir (t : VMThread) (regint1 regint2 : Nat) :
    Option VMThread := do
  let v1 ← t.regints.get? regint1
  let v2 ← t.regints.get? regint2
  pure { t with comparator := v1 - v2 }

/-- `jl` (`vm.py` lines 270-273). -/
def VMThread.jl (t : VMThread) (litint : Nat) : VMThread :=
  if t.comparator < 0 then { t with pc := (litint : Int) - 1 } else t

/-- `je` (`vm.py` lines 276-279). -/
def VMThread.je (t : VMThread) (litint : Nat) : VMThread :=
  if t.comparator = 0 then { t with pc := (litint : Int) - 1 } else t

/-- `jg` (`vm.py` lines 282-285). -/
def VMThread.jg (t : VMThread) (litint : Nat) : VMThread :=
  if t.comparator > 0 then { t with pc := (litint : Int) - 1 } else t

/-- `jmp` (`vm.py` lines 288-290). -/
def VMThread.jmp (t : VMThread) (litint : Nat) : VMThread :=
  { t with pc := (litint : Int) - 1 }

/-- The opcode table `VMThread.opcodes` (`vm.py` lines 300-334), in
declaration order, together with each handler's assembler mnemonic
(`asm_name` when set, else the handler's `__name__`). -/
def opTable : List (Nat × List Nat × List Operand) := [
  (0x00, tok "reset",     []),
  (0x01, tok "loadspr",   [.REGSTR, .REGINT]),
  (0x02, tok "unloadspr", [.REGINT]),
  (0x03, tok "fork",      [.LITINT]),
  (0x04, tok "ret",       []),
  (0x05, tok "call",      [.LITINT]),
  (0x06, tok "pushs",     [.REGSTR]),
  (0x07, tok "pops",      [.REGSTR]),
  (0x08, tok "pushi",     [.REGINT]),
  (0x09, tok "popi",      [.REGINT]),
  (0x0a, tok "wait",      [.REGINT]),
  (0x0b, tok "wait",      [.LITSTR]),
  (0x0c, tok "fire",      [.LITSTR]),
  (0x0d, tok "say",       [.REGINT, .REGSTR]),
  (0x0e, tok "set",       [.REGSTR, .LITSTR]),
  (0x0f, tok "set",       [.REGINT, .LITINT]),
  (0x10, tok "set",       [.REGSTR, .REGSTR]),
  (0x11, tok "set",       [.REGINT, .REGINT]),
  (0x12, tok "show",      [.REGINT, .REGINT]),
  (0x13, tok "layer",     [.REGINT, .REGINT]),
  (0x14, tok "attr",      [.LITSTR, .REGINT]),
  (0x15, tok "attr",      [.LITSTR, .REGSTR]),
  (0x16, tok "openbank",  [.REGINT]),
  (0x17, tok "add",       [.REGINT, .REGINT]),
  (0x18, tok "sub",       [.REGINT, .REGINT]),
  (0x19, tok "concat",    [.REGSTR, .LITSTR]),
  (0x1a, tok "concat",    [.REGSTR, .REGSTR]),
  (0x1b, tok "cmp",       [.REGINT, .LITINT]),
  (0x1c, tok "cmp",       [.REGINT, .REGINT]),
  (0x1d, tok "jl",        [.LITINT]),
  (0x1e, tok "je",        [.LITINT]),
  (0x1f, tok "jg",        [.LITINT]),
  (0x20, tok "jmp",       [.LITINT])]

/-- `self.opcodes[op]`: operand-kind list of an opcode byte; a missing key is
a `KeyError` that kills the thread (`none`). -/
def opcodes (b : Nat) : Option (List Operand) :=
  (opTable.find? (fun e => e.1 = b)).map (fun e => e.2.2)

/-- A decoded operand (`args` entries in `VMThread.run`). -/
inductive Arg
  | reg (b : Nat)
  | int (n : Nat)
  | str (s : List Nat)
deriving DecidableEq, Repr

/-- The LITSTR scan of `VMThread.run` (`vm.py` lines 77-81):
`while self.code[newpc] != 0x0: collect; newpc += 1`.  Note the scan starts AT
`newpc` — the byte most recently consumed (or the opcode byte itself when
LITSTR is the first operand) — because the loop lacks the initial increment
the other operand kinds have.  Running past the buffer raises `IndexError`
(the source comments "Buffer overrun problem - but I'll let it happen"); the
fuel only bounds that already-faulting loop. -/
def scanStr (code : List Nat) : Nat → Int → Option (List Nat × Int)
  | 0, _ => none
  | fuel + 1, i => do
      let b ← pyGet code i
      if b = 0 then pure ([], i)
      else do
        let (s, j) ← scanStr code fuel (i + 1)
        pure (b :: s, j)

/-- Decode one operand starting from `newpc` = index of the last byte consumed
so far (`vm.py` lines 66-82).  LITINT is 4 bytes, unpacked with
`struct.unpack("I", ...)`: unsigned 32-bit little-endian. -/
def decodeOperand (code : List Nat) (kind : Operand) (newpc : Int) :
    Option (Arg × Int) :=
  match kind with
  | .REGINT => do
      let b ← pyGet code (newpc + 1)
      pure (.reg b, newpc + 1)
  | .REGSTR => do
      let b ← pyGet code (newpc + 1)
      pure (.reg b, newpc + 1)
  | .LITINT => do
      let b0 ← pyGet code (newpc + 1)
      let b1 ← pyGet code (newpc + 2)
      let b2 ← pyGet code (newpc + 3)
      let b3 ← pyGet code (newpc + 4)
      pure (.int (b0 + 256 * b1 + 65536 * b2 + 16777216 * b3), newpc + 4)
  | .LITSTR => do
      let (s, j) ← scanStr code (2 * code.length + 2) newpc
      pure (.str s, j)

/-- The operand loop of `VMThread.run`: decode each operand in turn,
returning the argument list and the final `newpc`. -/
def decodeArgs (code : List Nat) : List Operand → Int → Option (List Arg × Int)
  | [], newpc => some ([], newpc)
  | kind :: rest, newpc => do
      let (a, newpc') ← decodeOperand code kind newpc
      let (as, newpc'') ← decodeArgs code rest newpc'
      pure (a :: as, newpc'')

/-- Result of one dispatcher iteration.  Opcode `0x00` delegates to
`Runtime.reset` (a runtime-level effect), every other opcode yields an
updated thread and sprite bank. -/
inductive StepRes
  | norm (t : VMThread) (bank : Bank)
  | didReset (t : VMThread)
deriving DecidableEq, Repr

/-- `op.__call__(self, *args)`: dispatch an opcode byte to its handler.
A malformed argument list raises `TypeError` (`none`); by construction the
decoded list always matches the table shape. -/
def exec (sprOf : List Nat → Option SpriteSurface) (b : Nat) (args : List Arg)
    (bank : Bank) (t : VMThread) : Option StepRes :=
  match b, args with
  | 0x00, [] => some (.didReset t)
  | 0x01, [.reg rs, .reg ri] =>
      (t.loadspr sprOf bank rs ri).map (fun bk => .norm t bk)
  | 0x02, [.reg ri] => (t.unloadspr bank ri).map (fun bk => .norm t bk)
  | 0x03, [.int p] => (t.fork p).map (fun t' => .norm t' bank)
  | 0x04, [] => t.ret.map (fun t' => .norm t' bank)
  | 0x05, [.int p] => some (.norm (t.call p) bank)
  | 0x06, [.reg r] => (t.pushs r).map (fun t' => .norm t' bank)
  | 0x07, [.reg r] => (t.pops r).map (fun t' => .norm t' bank)
  | 0x08, [.reg r] => (t.pushi r).map (fun t' => .norm t' bank)
  | 0x09, [.reg r] => (t.popi r).map (fun t' => .norm t' bank)
  | 0x0a, [.reg r] => some (.norm (t.waitms r) bank)
  | 0x0b, [.str s] => some (.norm (t.waithook s) bank)
  | 0x0c, [.str s] => some (.norm (t.fire s) bank)
  | 0x0d, [.reg r1, .reg r2] => some (.norm (t.say r1 r2) bank)
  | 0x0e, [.reg r, .str s] => (t.setls r s).map (fun t' => .norm t' bank)
  | 0x0f, [.reg r, .int n] => (t.setli r n).map (fun t' => .norm t' bank)
  | 0x10, [.reg r1, .reg r2] => (t.setrs r1 r2).map (fun t' => .norm t' bank)
  | 0x11, [.reg r1, .reg r2] => (t.setri r1 r2).map (fun t' => .norm t' bank)
  | 0x12, [.reg r1, .reg r2] =>
      (t.showspr bank r1 r2).map (fun bk => .norm t bk)
  | 0x13, [.reg r1, .reg r2] => some (.norm (t.layer r1 r2) bank)
  | 0x14, [.str s, .reg r] => (t.attri s r).map (fun t' => .norm t' bank)
  | 0x15, [.str s, .reg r] => (t.attrs s r).map (fun t' => .norm t' bank)
  | 0x16, [.reg r] => (t.openbank bank r).map (fun t' => .norm t' bank)
  | 0x17, [.reg r1, .reg r2] => (t.addr r1 r2).map (fun t' => .norm t' bank)
  | 0x18, [.reg r1, .reg r2] => (t.subr r1 r2).map (fun t' => .norm t' bank)
  | 0x19, [.reg r, .str s] => (t.concatl r s).map (fun t' => .norm t' bank)
  | 0x1a, [.reg r1, .reg r2] => (t.concatr r1 r2).map (fun t' => .norm t' bank)
  | 0x1b, [.reg r, .int n] => (t.cmp_iil r n).map (fun t' => .norm t' bank)
  | 0x1c, [.reg r1, .reg r2] => (t.cmp_iir r1 r2).map (fun t' => .norm t' bank)
  | 0x1d, [.int p] => some (.norm (t.jl p) bank)
  | 0x1e, [.int p] => some (.norm (t.je p) bank)
  | 0x1f, [.int p] => some (.norm (t.jg p) bank)
  | 0x20, [.int p] => some (.norm (t.jmp p) bank)
  | _, _ => none

/-- One iteration of the dispatcher loop `VMThread.run` (`vm.py` lines 60-88):
fetch the opcode byte at `pc`, look it up, decode the operands, set
`pc := newpc` (the last byte consumed), run the handler, then `pc += 1`.
The loop body only runs while `self.running`; theorems state that as a
hypothesis where it matters. -/
def step (sprOf : List Nat → Option SpriteSurface) (code : List Nat)
    (bank : Bank) (t : VMThread) : Option StepRes := do
  let b ← pyGet code t.pc
  let ops ← opcodes b
  let (args, newpc) ← decodeArgs code ops t.pc
  let res ← exec sprOf b args bank { t with pc := newpc }
  match res with
  | .norm t' bank' => pure (.norm { t' with pc := t'.pc + 1 } bank')
  | .didReset t' => pure (.didReset { t' with pc := t'.pc + 1 })

/-- Runtime state (`vm.py` lines 15-40): the sprite bank and the thread set
(the window handle and the immutable code are not part of the mutable state). -/
structure Runtime where
  sprite_bank : Bank
  threads : List VMThread
deriving DecidableEq, Repr

/-- `Runtime.start` (`vm.py` lines 22-28). -/
def Runtime.start (r : Runtime) : Option Runtime :=
  if r.threads.length > 0 then none
  else some { r with threads := [VMThread.init 0] }

/-- `Runtime._call_fork` (`vm.py` lines 30-33): a fresh thread at `pc`. -/
def Runtime.call_fork (r : Runtime) (pc : Int) : Runtime :=
  { r with threads := r.threads ++ [VMThread.init pc] }

/-- `Runtime.reset` (`vm.py` lines 35-40): `thread.stop()` on every thread,
then `self.threads.clear()`.  Nothing else is touched — in particular the
sprite bank is left as it is, and there is no join/wait.  The first component
is the runtime state after `reset`; the second is the list of stopped
(now detached) thread objects. -/
def Runtime.reset (r : Runtime) : Runtime × List VMThread :=
  ({ r with threads := [] }, r.threads.map VMThread.stop)

/-! The assembler, `codegen.py`.  Input is modelled after `shlex.split`:
a list of lines, each a list of tokens (byte lists, quotes already stripped).
Two failure modes are distinguished: `AssemblyError`, which the per-line
candidate loop catches to try the next encoding, and any other exception
(`struct.error`, `ValueError` from `bytearray.append`, `IndexError`), which
propagates and aborts the assembler. -/

inductive AsmErr
  | asmError
  | crash
deriving DecidableEq, Repr

/-- ASCII digit test; tokens come from a text file, so `str.isnumeric` is the
ASCII-digit check on the byte level. -/
def isDigit (c : Nat) : Bool := 48 ≤ c && c ≤ 57

/-- `token.isnumeric()`: nonempty and all digits. -/
def isNumericTok (s : List Nat) : Bool := !s.isEmpty && s.all isDigit

/-- Numeric value of a digit string. -/
def digitsVal (s : List Nat) : Nat := s.foldl (fun a c => a * 10 + (c - 48)) 0

/-- `int(token)` on the token shapes the assembler feeds it: an optional `-`
sign followed by decimal digits; anything else raises `ValueError` (`none`). -/
def parseInt : List Nat → Option Int
  | 45 :: rest => if isNumericTok rest then some (-(digitsVal rest : Int)) else none
  | s => if isNumericTok s then some (digitsVal s : Int) else none

/-- `struct.pack("i", n)`: 4 bytes little-endian two's complement;
out of signed 32-bit range raises `struct.error` (uncaught). -/
def packI32 (n : Int) : Option (List Nat) :=
  if -(2 ^ 31) ≤ n ∧ n < 2 ^ 31 then
    let u := (n % (2 ^ 32)).toNat
    some [u % 256, u / 256 % 256, u / 65536 % 256, u / 16777216 % 256]
  else none

/-- `struct.pack("I", n)`: 4 bytes little-endian unsigned. -/
def packU32 (n : Nat) : Option (List Nat) :=
  if n < 2 ^ 32 then
    some [n % 256, n / 256 % 256, n / 65536 % 256, n / 16777216 % 256]
  else none

/-- `opcodes[opname]` of `codegen.py` lines 21-29: candidate
`(opcode, operand kinds)` encodings of a mnemonic, in declaration order. -/
def candidates (m : List Nat) : List (Nat × List Operand) :=
  (opTable.filter (fun e => e.2.1 = m)).map (fun e => (e.1, e.2.2))

/-- Encode one `(token, operand_type)` pair (`codegen.py` lines 86-107);
`pos` is `len(output) + len(buffer)` at this point, where a procedure
reference placeholder would sit.  Returns the emitted bytes and any recorded
reference. -/
def encodeTok (pos : Nat) (token : List Nat) :
    Operand → Except AsmErr (List Nat × List (Nat × List Nat))
  | .REGINT =>
      if isNumericTok (token.drop 1) && token.head? = some 105 then
        if digitsVal (token.drop 1) < 256 then
          .ok ([digitsVal (token.drop 1)], [])
        else .error .crash
      else .error .asmError
  | .LITINT =>
      match parseInt token with
      | some n =>
          match packI32 n with
          | some bs => .ok (bs, [])
          | none => .error .crash
      | none =>
          match token with
          | [] => .error .crash
          | c :: name =>
              if c = 64 then .ok ([0, 0, 0, 0], [(pos, name)])
              else .error .asmError
  | .REGSTR =>
      if isNumericTok (token.drop 1) && token.head? = some 115 then
        if digitsVal (token.drop 1) < 256 then
          .ok ([digitsVal (token.drop 1)], [])
        else .error .crash
      else .error .asmError
  | .LITSTR => .ok (token ++ [0], [])

/-- The `zip(tokens[1:], operands)` loop: iteration stops at the shorter of
the two lists (surplus tokens are ignored; missing tokens silently truncate
the encoding, as in the source). -/
def encodeOperands (outLen : Nat) (buf : List Nat)
    (refs : List (Nat × List Nat)) :
    List (List Nat) → List Operand → Except AsmErr (List Nat × List (Nat × List Nat))
  | _, [] => .ok (buf, refs)
  | [], _ => .ok (buf, refs)
  | tk :: tks, kind :: kinds => do
      let (bs, rs) ← encodeTok (outLen + buf.length) tk kind
      encodeOperands outLen (buf ++ bs) (refs ++ rs) tks kinds

/-- The candidate loop (`codegen.py` lines 74-115): try each interpretation in
order; an `AssemblyError` moves on to the next candidate, and when every
candidate has failed the last error is re-raised. -/
def tryCandidates (outLen : Nat) (tokens : List (List Nat)) :
    List (Nat × List Operand) → Except AsmErr (List Nat × List (Nat × List Nat))
  | [] => .error .asmError
  | (opval, operands) :: rest =>
      match encodeOperands outLen [opval] [] (tokens.drop 1) operands with
      | .ok r => .ok r
      | .error .asmError => tryCandidates outLen tokens rest
      | .error .crash => .error .crash

/-- Assembler state across the emit pass. -/
structure AsmState where
  output : List Nat
  procedures : List (List Nat × Nat)
  refs : List (Nat × List Nat)
deriving DecidableEq, Repr

/-- `tokens[:tokens.index(';')]`: everything before the first bare `;` token
(the comment-strip at `codegen.py` lines 51-54). -/
def stripComment (tokens : List (List Nat)) : List (List Nat) :=
  tokens.takeWhile (fun t => t ≠ [59])

/-- The instruction branch of a line (`codegen.py` lines 68-115): the first
token is the mnemonic; an unknown mnemonic is an `AssemblyError`, otherwise
the candidate loop encodes the line and its bytes are committed. -/
def emitInstr (st : AsmState) (tokens : List (List Nat)) :
    Except AsmErr AsmState :=
  match tokens with
  | [] => .error .asmError
  | opname :: _ =>
      match candidates opname with
      | [] => .error .asmError
      | cs => do
          let (buf, rs) ← tryCandidates st.output.length tokens cs
          .ok { st with output := st.output ++ buf, refs := st.refs ++ rs }

/-- Emit one source line (`codegen.py` lines 56-115): skip empty lines,
register a label for a single token ending in `:` (duplicates fail),
otherwise treat the line as an instruction.  `tokens[0][-1]` on an empty
token raises `IndexError` (uncaught). -/
def emitLine (st : AsmState) (tokens : List (List Nat)) :
    Except AsmErr AsmState :=
  match tokens with
  | [] => .ok st
  | [t0] =>
      match t0.getLast? with
      | none => .error .crash
      | some c =>
          if c = 58 then
            let name := t0.dropLast
            match dictGet st.procedures name with
            | none => .ok { st with
                procedures := dictInsert st.procedures name st.output.length }
            | some _ => .error .asmError
          else
            emitInstr st [t0]
  | toks => emitInstr st toks

/-- The whole emit pass over all lines. -/
def emitAll : AsmState → List (List (List Nat)) → Except AsmErr AsmState
  | st, [] => .ok st
  | st, ln :: rest => do
      let st' ← emitLine st (stripComment ln)
      emitAll st' rest

/-- The resolution pass (`codegen.py` lines 121-130): overwrite each recorded
placeholder with the label's offset; a missing label fails. -/
def resolveRefs (output : List Nat) (procedures : List (List Nat × Nat)) :
    List (Nat × List Nat) → Except AsmErr (List Nat)
  | [] => .ok output
  | (location, name) :: rest =>
      match dictGet procedures name with
      | some addr =>
          match packU32 addr with
          | some bs =>
              resolveRefs (output.take location ++ bs ++ output.drop (location + 4))
                procedures rest
          | none => .error .crash
      | none => .error .asmError

/-- The assembler: emit pass, then reference resolution; the resulting byte
vector is written to the output file verbatim. -/
def assemble (lines : List (List (List Nat))) : Except AsmErr (List Nat) := do
  let st ← emitAll ⟨[], [], []⟩ lines
  resolveRefs st.output st.procedures st.refs

/-- Decoding an emitted program as an instruction stream with the VM's own
decoder: starting at offset 0, fetch the opcode byte, look up its operand
kinds, decode the operands exactly as `VMThread.run` does, and continue at
`newpc + 1`; the stream is complete when the cursor reaches the end of the
byte vector exactly.  `none` is a decode fault (unknown opcode, out-of-range
read, or a cursor that misses the end). -/
def decodeProgram (code : List Nat) : Int → Nat → Option (List (Nat × List Arg))
  | _, 0 => none
  | pc, fuel + 1 =>
      if pc = (code.length : Int) then some []
      else do
        let b ← pyGet code pc
        let ops ← opcodes b
        let (args, newpc) ← decodeArgs code ops pc
        let rest ← decodeProgram code (newpc + 1) fuel
        pure ((b, args) :: rest)

/-- Two consecutive dispatcher iterations on one thread (a `didReset` outcome
ends the run, so it yields no second iteration). -/
def step2 (sprOf : List Nat → Option SpriteSurface) (code : List Nat)
    (bank : Bank) (t : VMThread) : Option StepRes :=
  (step sprOf code bank t).bind fun r =>
    match r with
    | .norm t1 b1 => step sprOf code b1 t1
    | .didReset _ => none

/-! Concrete fixtures used by the claim theorems and witnesses. -/

/-- A sprite constructor that always faults; the programs below never reach
`loadspr`, so the oracle is irrelevant to them. -/
def sprOf0 : List Nat → Option SpriteSurface := fun _ => none

/-- An all-empty sprite bank. -/
def bank0 : Bank := List.replicate MAX_BANKS none

/-- A loaded sprite with a single `default` frame. -/
def sprite0 : SpriteSurface :=
  ⟨[(defaultName, .load (tok "p"))], defaultName, 255, .load (tok "p"), none⟩

/-- A bank whose slot 0 holds `sprite0`. -/
def bank1 : Bank := some sprite0 :: List.replicate 31 none

/-- Bytes of `attr "f" i0` followed by `show i0 i1` (see the C8 theorem). -/
def progC8 : List Nat := [20, 102, 0, 0, 18, 0, 1]

/-- Thread state after executing the `attr` instruction of `progC8`: note the
decoded attribute key carries the spurious leading opcode byte `0x14`. -/
def tC8a : VMThread :=
  { VMThread.init 0 with pc := 4, attr_list := [([20, 102], .vi 0)] }

/-- Thread state after the subsequent `show`: only the pc moved. -/
def tC8b : VMThread := { tC8a with pc := 7 }

/-- `sprite0` after `show` drove its alpha to 0. -/
def spriteC8 : SpriteSurface :=
  { sprite0 with alpha := 0, image_alpha := some (.blend (.load (tok "p")) 0) }

/-- The bank after the `show` of `progC8`. -/
def bankC8 : Bank := some spriteC8 :: List.replicate 31 none

/-- An image loader that only resolves the path `q`. -/
def loaderQ : List Nat → Option Bitmap :=
  fun p => if p = tok "q" then some (.load (tok "q")) else none

/-! Evaluation lemmas for the opcode table and the dispatch of single
opcodes; each is definitional. -/

theorem opcodes_ret : opcodes 4 = some [] := rfl

theorem opcodes_call : opcodes 5 = some [Operand.LITINT] := rfl

theorem opcodes_showspr : opcodes 18 = some [Operand.REGINT, Operand.REGINT] := rfl

theorem opcodes_jl : opcodes 29 = some [Operand.LITINT] := rfl

theorem opcodes_je : opcodes 30 = some [Operand.LITINT] := rfl

theorem opcodes_jg : opcodes 31 = some [Operand.LITINT] := rfl

theorem opcodes_jmp : opcodes 32 = some [Operand.LITINT] := rfl

theorem decodeArgs_nil (code : List Nat) (pc : Int) :
    decodeArgs code [] pc = some ([], pc) := rfl

theorem exec_ret (sprOf : List Nat → Option SpriteSurface)
    (bank : Bank) (t : VMThread) :
    exec sprOf 4 [] bank t = t.ret.map (fun t' => .norm t' bank) := rfl

theorem exec_call (sprOf : List Nat → Option SpriteSurface) (p : Nat)
    (bank : Bank) (t : VMThread) :
    exec sprOf 5 [Arg.int p] bank t = some (.norm (t.call p) bank) := rfl

theorem exec_showspr (sprOf : List Nat → Option SpriteSurface) (r1 r2 : Nat)
    (bank : Bank) (t : VMThread) :
    exec sprOf 18 [Arg.reg r1, Arg.reg r2] bank t =
      (t.showspr bank r1 r2).map (fun bk => .norm t bk) := rfl

theorem exec_jl (sprOf : List Nat → Option SpriteSurface) (p : Nat)
    (bank : Bank) (t : VMThread) :
    exec sprOf 29 [Arg.int p] bank t = some (.norm (t.jl p) bank) := rfl

theorem exec_je (sprOf : List Nat → Option SpriteSurface) (p : Nat)
    (bank : Bank) (t : VMThread) :
    exec sprOf 30 [Arg.int p] bank t = some (.norm (t.je p) bank) := rfl

theorem exec_jg (sprOf : List Nat → Option SpriteSurface) (p : Nat)
    (bank : Bank) (t : VMThread) :
    exec sprOf 31 [Arg.int p] bank t = some (.norm (t.jg p) bank) := rfl

theorem exec_jmp (sprOf : List Nat → Option SpriteSurface) (p : Nat)
    (bank : Bank) (t : VMThread) :
    exec sprOf 32 [Arg.int p] bank t = some (.norm (t.jmp p) bank) := rfl

/-- C1: the control-transfer handlers obey the off-by-one convention.
For every program, sprite bank and thread state: executing `call @p` pushes
the current `pc` (the last byte of the `call` instruction, `t.pc + 4`) onto
the call stack and the next fetch is at `p`, with the integer stack, the
string stack and both register files untouched (the conclusion is a record
update of `t` in `pc` and `call_stack` only); a `ret` pops the top entry `r`
and the next fetch is at `r + 1`, so a `call @p` whose target starts with
`ret` resumes at `t.pc + 5`, the instruction immediately after the 5-byte
`call`, with all stacks and registers as before; and after `jmp @p` (or a
taken `jl`/`je`/`jg`) the next fetch is exactly at `p`. -/
theorem C1_call_ret_jump_offbyone
    (sprOf : List Nat → Option SpriteSurface) (code : List Nat)
    (bank : Bank) (t : VMThread) (p : Nat) :
    (pyGet code t.pc = some 5 →
      decodeArgs code [Operand.LITINT] t.pc = some ([Arg.int p], t.pc + 4) →
      step sprOf code bank t =
        some (.norm { t with pc := (p : Int),
                             call_stack := (t.pc + 4) :: t.call_stack } bank)) ∧
    (∀ r rest, pyGet code t.pc = some 4 → t.call_stack = r :: rest →
      step sprOf code bank t =
        some (.norm { t with pc := r + 1, call_stack := rest } bank)) ∧
    (pyGet code t.pc = some 5 →
      decodeArgs code [Operand.LITINT] t.pc = some ([Arg.int p], t.pc + 4) →
      pyGet code (p : Int) = some 4 →
      step2 sprOf code bank t =
        some (.norm { t with pc := t.pc + 5 } bank)) ∧
    (pyGet code t.pc = some 32 →
      decodeArgs code [Operand.LITINT] t.pc = some ([Arg.int p], t.pc + 4) →
      step sprOf code bank t = some (.norm { t with pc := (p : Int) } bank)) ∧
    (pyGet code t.pc = some 29 →
      decodeArgs code [Operand.LITINT] t.pc = some ([Arg.int p], t.pc + 4) →
      t.comparator < 0 →
      step sprOf code bank t = some (.norm { t with pc := (p : Int) } bank)) ∧
    (pyGet code t.pc = some 30 →
      decodeArgs code [Operand.LITINT] t.pc = some ([Arg.int p], t.pc + 4) →
      t.comparator = 0 →
      step sprOf code bank t = some (.norm { t with pc := (p : Int) } bank)) ∧
    (pyGet code t.pc = some 31 →
      decodeArgs code [Operand.LITINT] t.pc = some ([Arg.int p], t.pc + 4) →
      0 < t.comparator →
      step sprOf code bank t = some (.norm { t with pc := (p : Int) } bank)) := by
  have hcall : pyGet code t.pc = some 5 →
      decodeArgs code [Operand.LITINT] t.pc = some ([Arg.int p], t.pc + 4) →
      step sprOf code bank t =
        some (.norm { t with pc := (p : Int),
                             call_stack := (t.pc + 4) :: t.call_stack } bank) := by
    intro h1 h2
    simp [step, h1, h2, opcodes_call, exec_call, VMThread.call]
  refine ⟨hcall, ?_, ?_, ?_, ?_, ?_, ?_⟩
  · intro r rest h1 h2
    simp [step, h1, h2, opcodes_ret, decodeArgs_nil, exec_ret, VMThread.ret]
  · intro h1 h2 h3
    unfold step2
    rw [hcall h1 h2]
    show step sprOf code bank _ = _
    simp [step, h3, opcodes_ret, decodeArgs_nil, exec_ret, VMThread.ret]
    omega
  · intro h1 h2
    simp [step, h1, h2, opcodes_jmp, exec_jmp, VMThread.jmp]
  · intro h1 h2 h3
    simp [step, h1, h2, opcodes_jl, exec_jl, VMThread.jl, h3]
  · intro h1 h2 h3
    simp [step, h1, h2, opcodes_je, exec_je, VMThread.je, h3]
  · intro h1 h2 h3
    simp [step, h1, h2, opcodes_jg, exec_jg, VMThread.jg, h3]

/-- Witness for C1 on concrete programs: a `call @6` whose target is a `ret`
(bytes `[5,6,0,0,0,0,4]`), a bare `ret` with return address 9, and
`jmp`/taken-`jl`/`je`/`jg` to address 9. -/
theorem C1_call_ret_jump_offbyone_witness :
    step sprOf0 [5, 6, 0, 0, 0, 0, 4] bank0 (VMThread.init 0) =
      some (.norm { VMThread.init 0 with pc := 6, call_stack := [4] } bank0) ∧
    step sprOf0 [4] bank0 { VMThread.init 0 with call_stack := [9] } =
      some (.norm { VMThread.init 0 with pc := 10 } bank0) ∧
    step2 sprOf0 [5, 6, 0, 0, 0, 0, 4] bank0 (VMThread.init 0) =
      some (.norm { VMThread.init 0 with pc := 5 } bank0) ∧
    step sprOf0 [32, 9, 0, 0, 0] bank0 (VMThread.init 0) =
      some (.norm { VMThread.init 0 with pc := 9 } bank0) ∧
    step sprOf0 [29, 9, 0, 0, 0] bank0 { VMThread.init 0 with comparator := -1 } =
      some (.norm { VMThread.init 0 with comparator := -1, pc := 9 } bank0) ∧
    step sprOf0 [30, 9, 0, 0, 0] bank0 (VMThread.init 0) =
      some (.norm { VMThread.init 0 with pc := 9 } bank0) ∧
    step sprOf0 [31, 9, 0, 0, 0] bank0 { VMThread.init 0 with comparator := 1 } =
      some (.norm { VMThread.init 0 with comparator := 1, pc := 9 } bank0) := by
  refine ⟨?_, ?_, ?_, ?_, ?_, ?_, ?_⟩
  · exact (C1_call_ret_jump_offbyone sprOf0 [5, 6, 0, 0, 0, 0, 4] bank0
      (VMThread.init 0) 6).1 rfl rfl
  · exact (C1_call_ret_jump_offbyone sprOf0 [4] bank0
      { VMThread.init 0 with call_stack := [9] } 0).2.1 9 [] rfl rfl
  · exact (C1_call_ret_jump_offbyone sprOf0 [5, 6, 0, 0, 0, 0, 4] bank0
      (VMThread.init 0) 6).2.2.1 rfl rfl rfl
  · exact (C1_call_ret_jump_offbyone sprOf0 [32, 9, 0, 0, 0] bank0
      (VMThread.init 0) 9).2.2.2.1 rfl rfl
  · exact (C1_call_ret_jump_offbyone sprOf0 [29, 9, 0, 0, 0] bank0
      { VMThread.init 0 with comparator := -1 } 9).2.2.2.2.1 rfl rfl (by decide)
  · exact (C1_call_ret_jump_offbyone sprOf0 [30, 9, 0, 0, 0] bank0
      (VMThread.init 0) 9).2.2.2.2.2.1 rfl rfl rfl
  · exact (C1_call_ret_jump_offbyone sprOf0 [31, 9, 0, 0, 0] bank0
      { VMThread.init 0 with comparator := 1 } 9).2.2.2.2.2.2 rfl rfl (by decide)

/-- C2, code_bug evidence.  The claim says `sub r1, r2` stores
`R_i[r1] - R_i[r2]` and `add` stores the sum, both with 32-bit wraparound.
The code's `subr` body is `regints[r1] += regints[r2]` (`vm.py` line 242):
`sub i0 i1` (bytes `[24,0,1]`) with `R_i = [5,3,...]` leaves 8, not 2; and
`add i0 i0` (bytes `[23,0,0]`) with `R_i[0] = 2^31` leaves `2^32` — Python
integers never wrap. -/
theorem C2_sub_adds_no_wrap :
    step sprOf0 [24, 0, 1] bank0
      { VMThread.init 0 with regints := [5, 3, 0, 0, 0, 0, 0, 0] } =
      some (.norm { VMThread.init 0 with
        regints := [8, 3, 0, 0, 0, 0, 0, 0], pc := 3 } bank0) ∧
    step sprOf0 [23, 0, 0] bank0
      { VMThread.init 0 with regints := [2147483648, 0, 0, 0, 0, 0, 0, 0] } =
      some (.norm { VMThread.init 0 with
        regints := [4294967296, 0, 0, 0, 0, 0, 0, 0], pc := 3 } bank0) :=
  ⟨rfl, rfl⟩

/-- C3, code_bug evidence.  The assembler encodes `cmp i0 -1` with
`struct.pack("i", -1)` (bytes `FF FF FF FF`), but `VMThread.run` decodes the
LITINT with `struct.unpack("I", ...)` — unsigned.  With `R_i[0] = 0` the
comparator becomes `0 - 4294967295 < 0`: `jg` falls through (pc advances to
the next instruction, 5, not the target 9) and `jl` is the branch taken,
the opposite of the signed reading the claim requires. -/
theorem C3_cmp_negative_literal_decoded_unsigned :
    assemble [[tok "cmp", tok "i0", tok "-1"]] =
      .ok [27, 0, 255, 255, 255, 255] ∧
    step sprOf0 [27, 0, 255, 255, 255, 255] bank0 (VMThread.init 0) =
      some (.norm { VMThread.init 0 with
        pc := 6, comparator := -4294967295 } bank0) ∧
    step sprOf0 [31, 9, 0, 0, 0] bank0
      { VMThread.init 0 with comparator := -4294967295 } =
      some (.norm { VMThread.init 0 with
        pc := 5, comparator := -4294967295 } bank0) ∧
    step sprOf0 [29, 9, 0, 0, 0] bank0
      { VMThread.init 0 with comparator := -4294967295 } =
      some (.norm { VMThread.init 0 with
        pc := 9, comparator := -4294967295 } bank0) :=
  ⟨rfl, rfl, rfl, rfl⟩

/-- C4, code_bug evidence.  `VMThread.fork` calls
`self.global_state._call_fork()` without the `pc` argument that
`Runtime._call_fork(self, pc)` requires, so executing `fork @9` on a running
thread raises `TypeError` and kills the thread (`none`); no sibling is
spawned.  `Runtime._call_fork` itself, had it been reached with the operand,
does construct a fresh thread (empty stacks, zeroed registers) at the target. -/
theorem C4_fork_missing_pc_argument :
    step sprOf0 [3, 9, 0, 0, 0] bank0 (VMThread.init 0) = none ∧
    (VMThread.init 0).running = true ∧
    (Runtime.call_fork ⟨bank0, []⟩ 9).threads = [VMThread.init 9] :=
  ⟨rfl, rfl, rfl⟩

/-- C5, code_bug evidence.  `VMThread.waithook`'s body is `pass`: it is the
identity on the thread state for every hook name, so `wait "go"`
(assembled to `[11,103,111,0]`) completes immediately — the thread's next
instruction runs with no `fire "go"` ever issued, whether or not any other
thread is runnable. -/
theorem C5_waithook_never_parks :
    assemble [[tok "wait", tok "go"]] = .ok [11, 103, 111, 0] ∧
    step sprOf0 [11, 103, 111, 0] bank0 (VMThread.init 0) =
      some (.norm { VMThread.init 0 with pc := 4 } bank0) ∧
    (∀ (t : VMThread) (name : List Nat), t.waithook name = t) :=
  ⟨rfl, rfl, fun _ _ => rfl⟩

/-- C6, code_bug evidence.  `Runtime.reset` stops each thread and clears the
thread list, but the sprite bank is left exactly as it was — slot 0 below is
still occupied afterwards — and there is no join on the stopped threads. -/
theorem C6_reset_keeps_sprite_bank :
    (Runtime.reset ⟨bank1, [VMThread.init 0]⟩).1.sprite_bank = bank1 ∧
    pyGet (Runtime.reset ⟨bank1, [VMThread.init 0]⟩).1.sprite_bank 0 =
      some (some sprite0) ∧
    (Runtime.reset ⟨bank1, [VMThread.init 0]⟩).1.threads = [] ∧
    (Runtime.reset ⟨bank1, [VMThread.init 0]⟩).2 =
      [{ VMThread.init 0 with running := false }] :=
  ⟨rfl, rfl, rfl, rfl⟩

/-- C7, code_bug evidence.  The accepted one-line source `set s0 "x"`
assembles to `[14, 0, 120, 0]`, but the VM's LITSTR decode starts at the byte
already consumed (the register byte `0`, see `scanStr`), yields the empty
string and leaves the cursor there, so the next fetch lands inside the
string literal: byte `120` is no opcode and the stream faults instead of
matching the single source line.  A LITSTR-free line such as `set i0 7`
round-trips fine, isolating the desync to the LITSTR decoder. -/
theorem C7_litstr_decoder_desync :
    assemble [[tok "set", tok "s0", tok "x"]] = .ok [14, 0, 120, 0] ∧
    decodeProgram [14, 0, 120, 0] 0 5 = none ∧
    assemble [[tok "set", tok "i0", tok "7"]] = .ok [15, 0, 7, 0, 0, 0] ∧
    decodeProgram [15, 0, 7, 0, 0, 0] 0 7 =
      some [(15, [Arg.reg 0, Arg.int 7])] :=
  ⟨rfl, rfl, rfl, rfl⟩

/-- C8, code_bug evidence.  After `attr "f" i0` populates the attribute map,
the presentation op `show i0 i1` executes successfully (it sets the sprite's
alpha) yet the attribute map is exactly as before — `show`, `layer` and
`say` never read or clear `attr_list` in the code, so the map is not
consumed. -/
theorem C8_attrs_never_consumed :
    assemble [[tok "attr", tok "f", tok "i0"],
              [tok "show", tok "i0", tok "i1"]] = .ok progC8 ∧
    step sprOf0 progC8 bank1 (VMThread.init 0) = some (.norm tC8a bank1) ∧
    step sprOf0 progC8 bank1 tC8a = some (.norm tC8b bankC8) ∧
    tC8b.attr_list = tC8a.attr_list ∧
    tC8b.attr_list ≠ [] :=
  ⟨rfl, rfl, rfl, rfl, by decide⟩

/-- C9: a `show` whose target alpha is outside `[0, 255]` faults without
mutating the sprite.  For any occupied slot and any out-of-range alpha, the
setter's range check raises before any field assignment — `setAlpha` returns
`none` producing no modified surface — and the dispatcher step faults
(`none`), so the bank, including the sprite's stored alpha and its derived
alpha-modulated bitmap, is exactly as before the instruction. -/
theorem C9_show_alpha_out_of_range_faults
    (sprOf : List Nat → Option SpriteSurface) (code : List Nat)
    (bank : Bank) (t : VMThread) (rb ra : Nat) (bi a : Int) (s : SpriteSurface)
    (h0 : pyGet code t.pc = some 18)
    (h1 : pyGet code (t.pc + 1) = some rb)
    (h2 : pyGet code (t.pc + 2) = some ra)
    (h3 : t.regints.get? rb = some bi)
    (h4 : t.regints.get? ra = some a)
    (h5 : pyGet bank bi = some (some s))
    (h6 : a < 0 ∨ 255 < a) :
    s.setAlpha a = none ∧ step sprOf code bank t = none := by
  have hset : s.setAlpha a = none := by
    unfold SpriteSurface.setAlpha
    rcases h6 with h | h <;> simp <;> omega
  have h2' : pyGet code (t.pc + 1 + 1) = some ra := by
    rwa [show t.pc + 1 + 1 = t.pc + 2 by ring]
  have h3' : t.regints[rb]? = some bi := by
    rw [← List.get?_eq_getElem?]; exact h3
  have h4' : t.regints[ra]? = some a := by
    rw [← List.get?_eq_getElem?]; exact h4
  refine ⟨hset, ?_⟩
  simp [step, h0, opcodes_showspr, decodeArgs, decodeOperand, h1, h2',
    exec_showspr, VMThread.showspr, h3', h4', h5, hset]

/-- Witness for C9: `show i0 i1` (bytes `[18,0,1]`) with slot 0 holding
`sprite0` and a target alpha of 256. -/
theorem C9_show_alpha_out_of_range_faults_witness :
    sprite0.setAlpha 256 = none ∧
    step sprOf0 [18, 0, 1] bank1
      { VMThread.init 0 with regints := [0, 256, 0, 0, 0, 0, 0, 0] } = none :=
  C9_show_alpha_out_of_range_faults sprOf0 [18, 0, 1] bank1
    { VMThread.init 0 with regints := [0, 256, 0, 0, 0, 0, 0, 0] }
    0 1 0 256 sprite0 rfl rfl rfl rfl rfl rfl (Or.inr (by decide))

/-- C10: constructing a `SpriteSurface` faults exactly when the manifest does
not yield a successfully loaded entry named `default`: in general the
constructor returns `none` iff the loaded-image table has no `default` key;
in particular a manifest listing `default` whose image fails to load faults;
and a load failure for another name is non-fatal — construction succeeds
with that entry simply absent. -/
theorem C10_construction_requires_default
    (loadImage : List Nat → Option Bitmap)
    (manifest : List (List Nat × List Nat)) :
    ((SpriteSurface.init loadImage manifest).isNone ↔
      dictGet (loadImages loadImage manifest) defaultName = none) ∧
    (∀ path, loadImage path = none →
      SpriteSurface.init loadImage [(defaultName, path)] = none) ∧
    (∀ n p1 p2 b, loadImage p1 = none → loadImage p2 = some b →
      SpriteSurface.init loadImage [(n, p1), (defaultName, p2)] =
        some ⟨[(defaultName, b)], defaultName, 255, b, none⟩) := by
  refine ⟨?_, ?_, ?_⟩
  · unfold SpriteSurface.init
    cases h : dictGet (loadImages loadImage manifest) defaultName <;> simp [h]
  · intro path h
    simp [SpriteSurface.init, loadImages, h, dictGet]
  · intro n p1 p2 b h1 h2
    simp [SpriteSurface.init, loadImages, h1, h2, dictInsert, dictGet]

/-- Witness for C10 with the loader `loaderQ`: `default=z` fails to load and
construction aborts; `a=z` failing next to a loadable `default=q` does not. -/
theorem C10_construction_requires_default_witness :
    SpriteSurface.init loaderQ [(defaultName, tok "z")] = none ∧
    SpriteSurface.init loaderQ [(tok "a", tok "z"), (defaultName, tok "q")] =
      some ⟨[(defaultName, .load (tok "q"))], defaultName, 255,
            .load (tok "q"), none⟩ :=
  ⟨(C10_construction_requires_default loaderQ []).2.1 (tok "z") rfl,
   (C10_construction_requires_default loaderQ []).2.2
     (tok "a") (tok "z") (tok "q") (.load (tok "q")) rfl rfl⟩

end VNVM
